import Mathlib

/-!
Verification development for the NodeConductor repository
(opennode/nodeconductor): a shallow embedding of the resource
synchronization state gate and of the cost aggregation engine
(`nodeconductor/cost_tracking/__init__.py`), together with theorems
settling the specification claims about them.
-/

set_option maxRecDepth 100000

/-! ## Synchronization state model

States of a provider-backed resource, as used by the security group API
(`nodeconductor.core.mixins.SynchronizationStates` as exercised in
`nodeconductor/iaas/tests/test_security_groups.py`).
-/

/-- Synchronization states of a provider-backed resource. -/
inductive SyncState where
  | CREATING
  | SYNCING
  | IN_SYNC
  | ERRED
deriving DecidableEq, Repr

/-- A security group rule, as submitted through the API. -/
structure SecurityGroupRule where
  protocol : String
  from_port : Nat
  to_port : Nat
  cidr : String
deriving DecidableEq, Repr

/-- A security group record as persisted by the API layer. -/
structure SecurityGroup where
  uuid : String
  name : String
  description : String
  state : SyncState
  rules : List SecurityGroupRule
deriving DecidableEq, Repr

/-- Background provider tasks dispatched by the security group API
(`nodeconductor.iaas.tasks.create_security_group` and friends). -/
inductive ProviderTask where
  | create_security_group
  | update_security_group
  | delete_security_group
deriving DecidableEq, Repr

/-- Outcome of a mutating API call on an existing security group:
the HTTP status code, the persisted record after the call, and the
background tasks enqueued (each keyed by a resource uuid). -/
structure ApiOutcome where
  status : Nat
  record : SecurityGroup
  tasks : List (ProviderTask × String)
deriving DecidableEq, Repr

/-- Quota counters on the owning cloud-project membership: each limit is
paired with the current usage; a negative limit means unlimited. -/
structure MembershipQuotas where
  security_group_count_limit : Int
  security_group_count_usage : Int
  security_group_rule_count_limit : Int
  security_group_rule_count_usage : Int
deriving DecidableEq, Repr

/-- Quota check: a quota is exceeded when a limit is set (non-negative)
and adding `delta` pushes usage strictly over the limit. -/
def quota_exceeded (limit usage delta : Int) : Bool :=
  decide (0 ≤ limit) && decide (limit < usage + delta)

/-- Modelled from the spec: the DRF view code gating security group
deletion is not under src (only its tests are). Per spec section 4.1 a
delete is state-gated and on acceptance sets state to SYNCING, enqueues
the provider-delete task keyed by the group uuid, and answers 202;
otherwise it answers 409 and leaves the record untouched. The state
gate itself follows the repository's own tests
(`test_security_groups.py`): deletion succeeds from IN_SYNC and is
rejected with 409 in any unstable state, including ERRED
(`test_security_group_can_not_be_deleted_in_unstable_state`). -/
def delete_security_group_call (g : SecurityGroup) : ApiOutcome :=
  if g.state = SyncState.IN_SYNC then
    { status := 202
      record := { g with state := SyncState.SYNCING }
      tasks := [(ProviderTask.delete_security_group, g.uuid)] }
  else
    { status := 409, record := g, tasks := [] }

/-- A PATCH request body for a security group: optional new name and
optional replacement rule list. -/
structure SecurityGroupChanges where
  name : Option String
  rules : Option (List SecurityGroupRule)
deriving DecidableEq, Repr

/-- Apply accepted changes to the persisted record. -/
def apply_changes (g : SecurityGroup) (c : SecurityGroupChanges) : SecurityGroup :=
  { g with name := c.name.getD g.name, rules := c.rules.getD g.rules }

/-- Modelled from the spec: the DRF view code gating security group
update is not under src (only its tests are). Per spec section 4.1 an
update is rejected with 409 unless the state is IN_SYNC, rejected with
a 400 validation error when the rule quota would be exceeded, and on
acceptance persists the changes, sets state to SYNCING, enqueues the
provider-update task keyed by the group uuid, and answers 200 (as the
tests `test_security_group_can_not_be_updated_in_unstable_state` and
`test_security_group_update_starts_sync_task` observe). -/
def update_security_group_call (q : MembershipQuotas) (g : SecurityGroup)
    (c : SecurityGroupChanges) : ApiOutcome :=
  if g.state ≠ SyncState.IN_SYNC then
    { status := 409, record := g, tasks := [] }
  else if quota_exceeded q.security_group_rule_count_limit
      q.security_group_rule_count_usage
      ((c.rules.getD g.rules).length - g.rules.length) then
    { status := 400, record := g, tasks := [] }
  else
    { status := 200
      record := { apply_changes g c with state := SyncState.SYNCING }
      tasks := [(ProviderTask.update_security_group, g.uuid)] }

/-- Outcome of a create call: the HTTP status, the table of persisted
security groups after the call, and the enqueued background tasks. -/
structure CreateOutcome where
  status : Nat
  db : List SecurityGroup
  tasks : List (ProviderTask × String)
deriving DecidableEq, Repr

/-- Modelled from the spec: the DRF view and quota code handling
security group creation is not under src (only its tests are). Per
spec sections 4.1 and the tests, a create counts the new group against
the `security_group_count` quota and its rules against the
`security_group_rule_count` quota; exceeding either rejects the whole
mutation with 400 and persists nothing; otherwise the group is
persisted in CREATING state, the provider-create task is enqueued once
keyed by the group uuid, and the call answers 201. -/
def create_security_group_call (q : MembershipQuotas) (db : List SecurityGroup)
    (uuid name description : String) (rules : List SecurityGroupRule) : CreateOutcome :=
  if quota_exceeded q.security_group_count_limit q.security_group_count_usage 1
      || quota_exceeded q.security_group_rule_count_limit
        q.security_group_rule_count_usage rules.length then
    { status := 400, db := db, tasks := [] }
  else
    { status := 201
      db := db ++ [{ uuid := uuid, name := name, description := description
                     state := SyncState.CREATING, rules := rules }]
      tasks := [(ProviderTask.create_security_group, uuid)] }

/-! ## Cost tracking register

Embedding of `CostTrackingRegister` from
`nodeconductor/cost_tracking/__init__.py`. The register is a dict from
an application label to the backend class registered under it; backends
are represented by abstract numeric identifiers.
-/

/-- The `CostTrackingRegister._register` dict: app label to backend. -/
def BackendRegister : Type := String → Option Nat

/-- `CostTrackingRegister.register(app_label, backend)`: dict assignment,
overwriting any previous entry for the label. -/
def register_backend (reg : BackendRegister) (app_label : String) (backend : Nat) :
    BackendRegister :=
  fun l => if l = app_label then some backend else reg l

/-- The exception raised when a resource's app has no registered backend
(`nodeconductor.structure.ServiceBackendNotImplemented`). -/
inductive BackendLookupError where
  | serviceBackendNotImplemented
deriving DecidableEq, Repr

/-- `CostTrackingRegister.get_resource_backend(resource)`: look the
resource's app label up in the register; a missing key raises
`ServiceBackendNotImplemented`. -/
def get_resource_backend (reg : BackendRegister) (app_label : String) :
    Except BackendLookupError Nat :=
  match reg app_label with
  | some backend => Except.ok backend
  | none => Except.error BackendLookupError.serviceBackendNotImplemented

/-! ## Decimal quantity conversion

`get_monthly_cost_estimate` multiplies each price by
`Decimal(format(item_count, ".15g"))`: the quantity rounded to 15
significant decimal digits (Python's round-half-even) before the exact
decimal multiplication. `dec15g` embeds that conversion on ℚ.
-/

/-- Number of decimal digits of `n`, computed with explicit fuel so that
the kernel can evaluate it (`decDigitsAux n n` with `n` as fuel). -/
def decDigitsAux : Nat → Nat → Nat
  | 0, _ => 1
  | fuel + 1, n => if n < 10 then 1 else decDigitsAux fuel (n / 10) + 1

/-- Number of decimal digits of a natural number (1 for 0). -/
def decDigits (n : Nat) : Nat := decDigitsAux n n

/-- For `q > 0`, the decimal exponent `e` with `10 ^ e ≤ q < 10 ^ (e + 1)`,
computed from the digit counts of numerator and denominator. -/
def decimalExponent (q : ℚ) : ℤ :=
  let e0 : ℤ := (decDigits q.num.toNat : ℤ) - (decDigits q.den : ℤ)
  if (10 : ℚ) ^ e0 ≤ q then e0 else e0 - 1

/-- Round to the nearest integer, ties to the even integer, as Python's
string formatting does. -/
def roundHalfEven (q : ℚ) : ℤ :=
  let fl : ℤ := ⌊q⌋
  if q - fl < 1/2 then fl
  else if (1 : ℚ)/2 < q - fl then fl + 1
  else if fl % 2 = 0 then fl else fl + 1

/-- 15-significant-digit rounding of a positive rational. -/
def dec15gPos (q : ℚ) : ℚ :=
  let e := decimalExponent q
  (roundHalfEven (q * 10 ^ (14 - e)) : ℚ) * 10 ^ (e - 14)

/-- `Decimal(format(q, ".15g"))`: the quantity rounded to 15 significant
decimal digits. -/
def dec15g (q : ℚ) : ℚ :=
  if q = 0 then 0
  else if q < 0 then - dec15gPos (-q)
  else dec15gPos q

/-! ## Price map and monthly cost estimate

Embedding of `CostTrackingBackend._get_price_map` and
`CostTrackingBackend.get_monthly_cost_estimate` from
`nodeconductor/cost_tracking/__init__.py`. Database rows are lists of
records; the Python dict built by `_get_price_map` is a partial map
from `(item_type, key)` to a decimal rate.
-/

/-- A row of the `DefaultPriceListItem` table: keyed by
`(item_type, key, resource_content_type)`, carrying the fallback
monthly rate. `id` is the primary key that service items refer to. -/
structure DefaultPriceListItem where
  id : Nat
  item_type : String
  key : String
  resource_content_type : String
  monthly_rate : ℚ
deriving DecidableEq, Repr

/-- A row of the `PriceListItem` table: a service-specific price for one
default price list item. -/
structure PriceListItem where
  service : String
  default_price_list_item_id : Nat
  monthly_rate : ℚ
deriving DecidableEq, Repr

/-- The Python dict built by `_get_price_map`. -/
def PriceMap : Type := String × String → Option ℚ

/-- Dict assignment `price_map[key] = val`. -/
def price_map_set (m : PriceMap) (k : String × String) (v : ℚ) : PriceMap :=
  fun x => if x = k then some v else m x

/-- The prefetched `service_item` list of one default item: the
`PriceListItem` rows of the given service that refer to it. -/
def service_price_items (pls : List PriceListItem) (service : String)
    (default_id : Nat) : List PriceListItem :=
  pls.filter fun p =>
    decide (p.service = service ∧ p.default_price_list_item_id = default_id)

/-- The rate `_get_price_map` stores for one default item: the first
prefetched service item's rate when one exists, the default rate
otherwise (`if item.service_item: val = item.service_item[0].monthly_rate`). -/
def resolved_rate (pls : List PriceListItem) (service : String)
    (d : DefaultPriceListItem) : ℚ :=
  match (service_price_items pls service d.id).head? with
  | some p => p.monthly_rate
  | none => d.monthly_rate

/-- `CostTrackingBackend._get_price_map(resource)`: iterate the default
price list items of the resource's content type and map each
`(item_type, key)` to the service rate when the resource's service has
an override, to the default rate otherwise. -/
def build_price_map (defaults : List DefaultPriceListItem)
    (pls : List PriceListItem) (resource_content_type service : String) : PriceMap :=
  (defaults.filter fun d => decide (d.resource_content_type = resource_content_type)).foldl
    (fun m d => price_map_set m (d.item_type, d.key) (resolved_rate pls service d))
    (fun _ => none)

/-- A used item as returned by `get_used_items`:
`(item_type, item_key, item_count)`. -/
def UsedItem : Type := String × String × ℚ

/-- `CostTrackingBackend.get_monthly_cost_estimate(resource)`: fold over
the used items starting from 0; a used item whose key is missing from
the price map is only logged, any other contributes
`value * Decimal(format(item_count, ".15g"))`. -/
def get_monthly_cost_estimate (pm : PriceMap) (used_items : List UsedItem) : ℚ :=
  used_items.foldl
    (fun monthly_cost it =>
      match pm (it.1, it.2.1) with
      | none => monthly_cost
      | some value => monthly_cost + value * dec15g it.2.2)
    0

/-- Specification-side contribution of one used item: `rate × quantity`
(at the 15-significant-digit quantity precision the spec fixes), and
exactly 0 when the price map has no entry for the item's key. -/
def item_contribution (pm : PriceMap) (it : UsedItem) : ℚ :=
  match pm (it.1, it.2.1) with
  | none => 0
  | some rate => rate * dec15g it.2.2

/-! ## Price estimates

Embedding of the `PriceEstimate` table under the unique constraint
`unique_together = (content_type, object_id, month, year)` installed by
`cost_tracking/migrations/0024_auto_20160818_1003.py`, together with
the two ways rows are written: a plain constraint-checked insert and
the `create_or_update` used by the threshold and limit endpoints in
`cost_tracking/views.py`.
-/

/-- A row of the `PriceEstimate` table. The scope is the polymorphic
`(content_type, object_id)` pair. -/
structure PriceEstimate where
  content_type : String
  object_id : Nat
  month : Nat
  year : Nat
  total : ℚ
  consumed : ℚ
  threshold : ℚ
  limit : ℚ
deriving DecidableEq, Repr

/-- The column tuple covered by the unique constraint of migration 0024. -/
def estimate_scope_key (e : PriceEstimate) : String × Nat × Nat × Nat :=
  (e.content_type, e.object_id, e.month, e.year)

/-- The database invariant: no two rows share `(content_type, object_id,
month, year)`. -/
def estimates_unique (db : List PriceEstimate) : Prop :=
  db.Pairwise fun a b => estimate_scope_key a ≠ estimate_scope_key b

/-- Constraint-checked insert: the unique constraint of migration 0024
makes the database reject a row whose scope key is already present. -/
def insert_price_estimate (db : List PriceEstimate) (e : PriceEstimate) :
    Except String (List PriceEstimate) :=
  if db.any (fun x => decide (estimate_scope_key x = estimate_scope_key e)) then
    Except.error "IntegrityError: duplicate (content_type, object_id, month, year)"
  else
    Except.ok (db ++ [e])

/-- `PriceEstimate.objects.create_or_update(scope, threshold=...)` as used
by the threshold endpoint: update the threshold of the existing row for
the scope and month, or create a fresh row for it. -/
def create_or_update_threshold (db : List PriceEstimate)
    (ct : String) (oid month year : Nat) (t : ℚ) : List PriceEstimate :=
  if db.any (fun x => decide (estimate_scope_key x = (ct, oid, month, year))) then
    db.map fun x =>
      if estimate_scope_key x = (ct, oid, month, year) then { x with threshold := t } else x
  else
    db ++ [{ content_type := ct, object_id := oid, month := month, year := year
             total := 0, consumed := 0, threshold := t, limit := -1 }]

/-! ## User invitation validation

Embedding of `InvitationSerializer.validate` from
`nodeconductor/users/serializers.py`. The serializer's validated
attributes carry an optional customer with an optional customer role
and an optional project with an optional project role; roles are
abstract numeric identifiers.
-/

/-- The attributes reaching `InvitationSerializer.validate`. -/
structure InvitationAttrs where
  link_template : String
  customer : Option String
  customer_role_type : Option Nat
  project : Option String
  project_role_type : Option Nat
deriving DecidableEq, Repr

/-- Result of serializer validation: the attributes are accepted or a
`ValidationError` naming the offending field is raised. -/
inductive ValidationOutcome where
  | ok
  | invalid (field : String)
deriving DecidableEq, Repr

/-- `InvitationSerializer.validate(attrs)`: the link template must
contain the literal uuid placeholder; a customer and a project cannot
both be named; one of them must be; a named customer requires a
customer role and a named project requires a project role. -/
def invitation_validate (a : InvitationAttrs) : ValidationOutcome :=
  if (a.link_template.splitOn "\x7buuid\x7d").length = 1 then
    ValidationOutcome.invalid "link_template"
  else if a.customer.isSome && a.project.isSome then
    ValidationOutcome.invalid "non_field_errors"
  else if !(a.customer.isSome || a.project.isSome) then
    ValidationOutcome.invalid "non_field_errors"
  else if a.customer.isSome && a.customer_role_type.isNone then
    ValidationOutcome.invalid "customer_role"
  else if a.project.isSome && a.project_role_type.isNone then
    ValidationOutcome.invalid "project_role"
  else
    ValidationOutcome.ok

/-! ## Theorems: synchronization state gate -/

/-- A concrete security group in the ERRED state. -/
def erredGroup : SecurityGroup :=
  { uuid := "a1b2c3", name := "web", description := "", state := SyncState.ERRED, rules := [] }

/-- A concrete security group in the IN_SYNC state. -/
def inSyncGroup : SecurityGroup :=
  { uuid := "d4e5f6", name := "db", description := "", state := SyncState.IN_SYNC
    rules := [{ protocol := "tcp", from_port := 1, to_port := 10, cidr := "cidr" }] }

/-- C1 counterexample: the claim says a delete in state ERRED is
accepted, but the delete call on a concrete ERRED security group
answers 409, exactly as the repository test
`test_security_group_can_not_be_deleted_in_unstable_state` asserts, so
acceptance is not equivalent to membership of the state in
IN_SYNC/ERRED. -/
theorem C1_claim_counterexample :
    ¬ (((delete_security_group_call erredGroup).status < 400) ↔
      (erredGroup.state = SyncState.IN_SYNC ∨ erredGroup.state = SyncState.ERRED)) := by
  decide

/-- C1 (amended): a delete is accepted exactly when the state is
IN_SYNC; an accepted delete answers 202 and moves the record to
SYNCING; a delete attempted in CREATING, SYNCING or ERRED answers 409
and leaves the record unchanged with no task enqueued. -/
theorem C1_delete_state_gate (g : SecurityGroup) :
    ((delete_security_group_call g).status < 400 ↔ g.state = SyncState.IN_SYNC) ∧
    (g.state = SyncState.IN_SYNC →
      (delete_security_group_call g).status = 202 ∧
      (delete_security_group_call g).record = { g with state := SyncState.SYNCING }) ∧
    (g.state ≠ SyncState.IN_SYNC →
      (delete_security_group_call g).status = 409 ∧
      (delete_security_group_call g).record = g ∧
      (delete_security_group_call g).tasks = []) := by
  unfold delete_security_group_call
  by_cases h : g.state = SyncState.IN_SYNC <;> simp [h]

/-- C1 witness: the amended theorem evaluated on a concrete IN_SYNC
group (delete accepted with 202) and on a concrete ERRED group (delete
rejected with 409, record untouched). -/
theorem C1_delete_state_gate_witness :
    ((delete_security_group_call inSyncGroup).status = 202 ∧
      (delete_security_group_call inSyncGroup).record =
        { inSyncGroup with state := SyncState.SYNCING }) ∧
    ((delete_security_group_call erredGroup).status = 409 ∧
      (delete_security_group_call erredGroup).record = erredGroup ∧
      (delete_security_group_call erredGroup).tasks = []) :=
  ⟨(C1_delete_state_gate inSyncGroup).2.1 rfl,
    (C1_delete_state_gate erredGroup).2.2 (by decide)⟩

/-- C2: an update is rejected with 409 and leaves the record untouched
whenever the state is not IN_SYNC (CREATING, SYNCING or ERRED), and
when the rule quota does not interfere an update is accepted exactly
when the state is IN_SYNC. -/
theorem C2_update_state_gate (q : MembershipQuotas) (g : SecurityGroup)
    (c : SecurityGroupChanges) :
    (g.state ≠ SyncState.IN_SYNC →
      (update_security_group_call q g c).status = 409 ∧
      (update_security_group_call q g c).record = g ∧
      (update_security_group_call q g c).tasks = []) ∧
    (quota_exceeded q.security_group_rule_count_limit q.security_group_rule_count_usage
        ((c.rules.getD g.rules).length - g.rules.length) = false →
      ((update_security_group_call q g c).status < 400 ↔ g.state = SyncState.IN_SYNC)) := by
  unfold update_security_group_call
  by_cases h : g.state = SyncState.IN_SYNC
  · constructor
    · intro hc
      exact absurd h hc
    · intro hq
      simp [h, hq]
  · simp [h]

/-- C2 witness: the theorem evaluated with an unlimited rule quota on a
concrete ERRED group (409, record untouched) and on a concrete IN_SYNC
group (accepted). -/
theorem C2_update_state_gate_witness :
    ((update_security_group_call
        { security_group_count_limit := -1, security_group_count_usage := 0
          security_group_rule_count_limit := -1, security_group_rule_count_usage := 0 }
        erredGroup { name := some "n", rules := none }).status = 409 ∧
      (update_security_group_call
        { security_group_count_limit := -1, security_group_count_usage := 0
          security_group_rule_count_limit := -1, security_group_rule_count_usage := 0 }
        erredGroup { name := some "n", rules := none }).record = erredGroup ∧
      (update_security_group_call
        { security_group_count_limit := -1, security_group_count_usage := 0
          security_group_rule_count_limit := -1, security_group_rule_count_usage := 0 }
        erredGroup { name := some "n", rules := none }).tasks = []) ∧
    ((update_security_group_call
        { security_group_count_limit := -1, security_group_count_usage := 0
          security_group_rule_count_limit := -1, security_group_rule_count_usage := 0 }
        inSyncGroup { name := some "n", rules := none }).status < 400 ↔
      inSyncGroup.state = SyncState.IN_SYNC) :=
  ⟨(C2_update_state_gate _ erredGroup _).1 (by decide),
    (C2_update_state_gate _ inSyncGroup _).2 (by decide)⟩

/-- C5: with the `security_group_count` quota limit set to 0 (and a
non-negative current usage) any creation answers 400 and persists
nothing; likewise, with the `security_group_rule_count` quota limit set
to 0, any creation carrying at least one rule answers 400 and persists
nothing — the mutation is rejected atomically. -/
theorem C5_zero_quota_blocks_creation (q : MembershipQuotas) (db : List SecurityGroup)
    (uuid name description : String) (rules : List SecurityGroupRule) :
    (q.security_group_count_limit = 0 → 0 ≤ q.security_group_count_usage →
      (create_security_group_call q db uuid name description rules).status = 400 ∧
      (create_security_group_call q db uuid name description rules).db = db ∧
      (create_security_group_call q db uuid name description rules).tasks = []) ∧
    (q.security_group_rule_count_limit = 0 → 0 ≤ q.security_group_rule_count_usage →
      rules ≠ [] →
      (create_security_group_call q db uuid name description rules).status = 400 ∧
      (create_security_group_call q db uuid name description rules).db = db ∧
      (create_security_group_call q db uuid name description rules).tasks = []) := by
  constructor
  · intro hlim husage
    have hex : quota_exceeded q.security_group_count_limit q.security_group_count_usage 1 = true := by
      unfold quota_exceeded
      simp [hlim]
      omega
    unfold create_security_group_call
    simp [hex]
  · intro hlim husage hrules
    have hlen : 0 < (rules.length : Int) := by
      have := List.length_pos.mpr hrules
      omega
    have hex : quota_exceeded q.security_group_rule_count_limit
        q.security_group_rule_count_usage rules.length = true := by
      unfold quota_exceeded
      simp [hlim]
      omega
    unfold create_security_group_call
    simp [hex]

/-- C5 witness: the theorem evaluated on a concrete request against a
membership whose group quota limit is 0 and against one whose rule
quota limit is 0. -/
theorem C5_zero_quota_blocks_creation_witness :
    ((create_security_group_call
        { security_group_count_limit := 0, security_group_count_usage := 0
          security_group_rule_count_limit := -1, security_group_rule_count_usage := 0 }
        [] "u1" "g" "" []).status = 400 ∧
      (create_security_group_call
        { security_group_count_limit := 0, security_group_count_usage := 0
          security_group_rule_count_limit := -1, security_group_rule_count_usage := 0 }
        [] "u1" "g" "" []).db = [] ∧
      (create_security_group_call
        { security_group_count_limit := 0, security_group_count_usage := 0
          security_group_rule_count_limit := -1, security_group_rule_count_usage := 0 }
        [] "u1" "g" "" []).tasks = []) ∧
    ((create_security_group_call
        { security_group_count_limit := -1, security_group_count_usage := 0
          security_group_rule_count_limit := 0, security_group_rule_count_usage := 0 }
        [] "u1" "g" ""
        [{ protocol := "tcp", from_port := 1, to_port := 10, cidr := "c" }]).status = 400 ∧
      (create_security_group_call
        { security_group_count_limit := -1, security_group_count_usage := 0
          security_group_rule_count_limit := 0, security_group_rule_count_usage := 0 }
        [] "u1" "g" ""
        [{ protocol := "tcp", from_port := 1, to_port := 10, cidr := "c" }]).db = [] ∧
      (create_security_group_call
        { security_group_count_limit := -1, security_group_count_usage := 0
          security_group_rule_count_limit := 0, security_group_rule_count_usage := 0 }
        [] "u1" "g" ""
        [{ protocol := "tcp", from_port := 1, to_port := 10, cidr := "c" }]).tasks = []) :=
  ⟨(C5_zero_quota_blocks_creation _ [] "u1" "g" "" []).1 rfl (by decide),
    (C5_zero_quota_blocks_creation _ [] "u1" "g" "" _).2 rfl (by decide) (by decide)⟩

/-- C8: every accepted mutating call dispatches exactly one background
provider task keyed by the group uuid — an accepted create enqueues
only the provider-create task with the new group's uuid, an accepted
update only the provider-update task, and an accepted delete answers
202 (not a synchronous success) and enqueues only the provider-delete
task. -/
theorem C8_accepted_call_enqueues_one_task (q : MembershipQuotas) (db : List SecurityGroup)
    (uuid name description : String) (rules : List SecurityGroupRule)
    (g : SecurityGroup) (c : SecurityGroupChanges) :
    ((create_security_group_call q db uuid name description rules).status = 201 →
      (create_security_group_call q db uuid name description rules).tasks =
        [(ProviderTask.create_security_group, uuid)]) ∧
    ((update_security_group_call q g c).status < 400 →
      (update_security_group_call q g c).tasks =
        [(ProviderTask.update_security_group, g.uuid)]) ∧
    ((delete_security_group_call g).status < 400 →
      (delete_security_group_call g).status = 202 ∧
      (delete_security_group_call g).tasks =
        [(ProviderTask.delete_security_group, g.uuid)]) := by
  refine ⟨?_, ?_, ?_⟩
  · unfold create_security_group_call
    split <;> simp
  · unfold update_security_group_call
    split
    · simp
    · split <;> simp
  · unfold delete_security_group_call
    split <;> simp

/-- C8 witness: the theorem evaluated on a concrete accepted create, a
concrete accepted update and a concrete accepted delete. -/
theorem C8_accepted_call_enqueues_one_task_witness :
    ((create_security_group_call
        { security_group_count_limit := -1, security_group_count_usage := 0
          security_group_rule_count_limit := -1, security_group_rule_count_usage := 0 }
        [] "u9" "g" "" []).tasks = [(ProviderTask.create_security_group, "u9")]) ∧
    ((update_security_group_call
        { security_group_count_limit := -1, security_group_count_usage := 0
          security_group_rule_count_limit := -1, security_group_rule_count_usage := 0 }
        inSyncGroup { name := some "n", rules := none }).tasks =
      [(ProviderTask.update_security_group, inSyncGroup.uuid)]) ∧
    ((delete_security_group_call inSyncGroup).status = 202 ∧
      (delete_security_group_call inSyncGroup).tasks =
        [(ProviderTask.delete_security_group, inSyncGroup.uuid)]) :=
  ⟨(C8_accepted_call_enqueues_one_task
      { security_group_count_limit := -1, security_group_count_usage := 0
        security_group_rule_count_limit := -1, security_group_rule_count_usage := 0 }
      [] "u9" "g" "" [] inSyncGroup { name := some "n", rules := none }).1 (by decide),
    (C8_accepted_call_enqueues_one_task
      { security_group_count_limit := -1, security_group_count_usage := 0
        security_group_rule_count_limit := -1, security_group_rule_count_usage := 0 }
      [] "u9" "g" "" [] inSyncGroup { name := some "n", rules := none }).2.1 (by decide),
    (C8_accepted_call_enqueues_one_task
      { security_group_count_limit := -1, security_group_count_usage := 0
        security_group_rule_count_limit := -1, security_group_rule_count_usage := 0 }
      [] "u9" "g" "" [] inSyncGroup { name := some "n", rules := none }).2.2 (by decide)⟩

/-! ## Theorems: cost tracking register -/

/-- C7: resolving a resource whose app label is absent from the register
raises `ServiceBackendNotImplemented`; a registered label resolves to
exactly the backend stored under it, and resolving right after
registering a backend under a label returns that backend. -/
theorem C7_registry_resolution (reg : BackendRegister) (app_label : String) (backend : Nat) :
    (reg app_label = none →
      get_resource_backend reg app_label =
        Except.error BackendLookupError.serviceBackendNotImplemented) ∧
    (∀ b, reg app_label = some b → get_resource_backend reg app_label = Except.ok b) ∧
    get_resource_backend (register_backend reg app_label backend) app_label =
      Except.ok backend := by
  refine ⟨fun h => ?_, fun b h => ?_, ?_⟩
  · simp [get_resource_backend, h]
  · simp [get_resource_backend, h]
  · simp [get_resource_backend, register_backend]

/-- C7 witness: the theorem evaluated on the empty register (lookup of
the iaas label raises) and after registering backend 7 under the iaas
label (lookup returns backend 7). -/
theorem C7_registry_resolution_witness :
    get_resource_backend (fun _ => none) "iaas" =
      Except.error BackendLookupError.serviceBackendNotImplemented ∧
    get_resource_backend (register_backend (fun _ => none) "iaas" 7) "iaas" =
      Except.ok 7 :=
  ⟨(C7_registry_resolution (fun _ => none) "iaas" 7).1 rfl,
    (C7_registry_resolution (fun _ => none) "iaas" 7).2.2⟩

/-! ## Theorems: monthly cost estimate

The rational arithmetic operations are made semireducible locally so
that concrete witnesses evaluate by kernel reduction.
-/

section CostEstimateTheorems

attribute [local semireducible] Rat.mul Rat.add Rat.sub Rat.inv

/-- The cost fold of `get_monthly_cost_estimate` started from any
accumulator adds exactly the sum of the per-item contributions. -/
theorem monthly_cost_foldl (pm : PriceMap) (items : List UsedItem) (acc : ℚ) :
    items.foldl
      (fun monthly_cost it =>
        match pm (it.1, it.2.1) with
        | none => monthly_cost
        | some value => monthly_cost + value * dec15g it.2.2) acc
      = acc + (items.map (item_contribution pm)).sum := by
  induction items generalizing acc with
  | nil => simp
  | cons it rest ih =>
    simp only [List.foldl_cons, List.map_cons, List.sum_cons]
    cases h : pm (it.1, it.2.1) with
    | none =>
      rw [ih]
      simp [item_contribution, h]
    | some value =>
      rw [ih]
      simp only [item_contribution, h]
      ring

/-- C3: the monthly cost estimate is the sum over all used items of the
per-item contribution `rate × quantity`, where an item whose
`(item_type, key)` is absent from the price map contributes exactly 0;
the computation is total, so a missing price entry never aborts it. -/
theorem C3_estimate_is_sum (pm : PriceMap) (items : List UsedItem) :
    get_monthly_cost_estimate pm items = (items.map (item_contribution pm)).sum ∧
    ∀ it ∈ items, pm (it.1, it.2.1) = none → item_contribution pm it = 0 := by
  constructor
  · unfold get_monthly_cost_estimate
    rw [monthly_cost_foldl]
    ring
  · intro it _ h
    simp [item_contribution, h]

/-- A concrete price map holding a single flavor price of 10. -/
def pmFlavor : PriceMap :=
  fun k => if k = ("flavor", "small") then some 10 else none

/-- C3 witness: the theorem evaluated on a concrete price map and a
used-item list containing an unpriced storage item — the estimate is
the two-element contribution sum and the unpriced item contributes 0. -/
theorem C3_estimate_is_sum_witness :
    (get_monthly_cost_estimate pmFlavor
        [("flavor", "small", (1 : ℚ)), ("storage", "1gb", (2 : ℚ))] =
      ([("flavor", "small", (1 : ℚ)), ("storage", "1gb", (2 : ℚ))].map
        (item_contribution pmFlavor)).sum) ∧
    item_contribution pmFlavor ("storage", "1gb", (2 : ℚ)) = 0 ∧
    get_monthly_cost_estimate pmFlavor
        [("flavor", "small", (1 : ℚ)), ("storage", "1gb", (2 : ℚ))] = 10 :=
  ⟨(C3_estimate_is_sum pmFlavor _).1,
    (C3_estimate_is_sum pmFlavor
        [("flavor", "small", (1 : ℚ)), ("storage", "1gb", (2 : ℚ))]).2
      ("storage", "1gb", (2 : ℚ)) (by simp) rfl,
    by decide⟩

/-- C6: a used item whose key carries a rate contributes exactly
`rate * dec15g quantity` to the estimate — the quantity passes through
the fixed 15-significant-digit decimal conversion before the exact
multiplication with the rate. -/
theorem C6_contribution_uses_dec15g (pm : PriceMap) (t k : String) (c : ℚ)
    (rest : List UsedItem) (rate : ℚ) (h : pm (t, k) = some rate) :
    get_monthly_cost_estimate pm ((t, k, c) :: rest) =
      rate * dec15g c + get_monthly_cost_estimate pm rest := by
  unfold get_monthly_cost_estimate
  simp only [List.foldl_cons]
  rw [monthly_cost_foldl, monthly_cost_foldl]
  simp only [h]
  ring

/-- C6 witness: the theorem evaluated on a quantity with 17 significant
digits — the conversion genuinely rounds it to 15 significant digits
(`dec15g 10000000000000001 = 10000000000000000`), and the estimate is
the rate times the converted quantity. -/
theorem C6_contribution_uses_dec15g_witness :
    dec15g 10000000000000001 = 10000000000000000 ∧
    pmFlavor ("flavor", "small") = some 10 ∧
    get_monthly_cost_estimate pmFlavor [("flavor", "small", (10000000000000001 : ℚ))] =
      10 * dec15g 10000000000000001 + get_monthly_cost_estimate pmFlavor [] :=
  ⟨by decide,
    by decide,
    C6_contribution_uses_dec15g pmFlavor "flavor" "small" 10000000000000001 [] 10
      (by decide)⟩


/-! ## Theorems: price resolution -/

/-- Setting a key in the price map makes lookups of that key return the
new value. -/
theorem price_map_set_same (m : PriceMap) (k : String × String) (v : ℚ) :
    price_map_set m k v k = some v := by
  simp [price_map_set]

/-- Setting a key in the price map leaves other keys unchanged. -/
theorem price_map_set_other (m : PriceMap) (k x : String × String) (v : ℚ)
    (h : x ≠ k) : price_map_set m k v x = m x := by
  simp [price_map_set, h]

/-- Folding price-map assignments over default items none of which has
the queried key leaves the queried key unchanged. -/
theorem foldl_price_map_not_mem (f : DefaultPriceListItem → ℚ)
    (ds : List DefaultPriceListItem) (m : PriceMap) (k : String × String)
    (h : ∀ d ∈ ds, (d.item_type, d.key) ≠ k) :
    (ds.foldl (fun m x => price_map_set m (x.item_type, x.key) (f x)) m) k = m k := by
  induction ds generalizing m with
  | nil => rfl
  | cons a rest ih =>
    simp only [List.foldl_cons]
    rw [ih _ fun x hx => h x (List.mem_cons_of_mem _ hx)]
    exact price_map_set_other _ _ _ _ (Ne.symm (h a (List.mem_cons_self _ _)))

/-- Folding price-map assignments over default items with pairwise
distinct `(item_type, key)` keys maps each member's key to its assigned
value. -/
theorem foldl_price_map_mem (f : DefaultPriceListItem → ℚ)
    (ds : List DefaultPriceListItem) (d : DefaultPriceListItem) :
    ∀ m : PriceMap, d ∈ ds →
      ds.Pairwise (fun a b => (a.item_type, a.key) ≠ (b.item_type, b.key)) →
      (ds.foldl (fun m x => price_map_set m (x.item_type, x.key) (f x)) m)
          (d.item_type, d.key) = some (f d) := by
  induction ds with
  | nil =>
    intro m hmem _
    cases hmem
  | cons a rest ih =>
    intro m hmem huniq
    simp only [List.foldl_cons]
    rcases List.mem_cons.mp hmem with h | h
    · subst h
      have hne : ∀ x ∈ rest, (x.item_type, x.key) ≠ (d.item_type, d.key) :=
        fun x hx => Ne.symm ((List.pairwise_cons.mp huniq).1 x hx)
      rw [foldl_price_map_not_mem f rest _ _ hne]
      exact price_map_set_same _ _ _
    · exact ih _ h (List.pairwise_cons.mp huniq).2

/-- C4: for a default price list item of the resource's content type
whose `(item_type, key)` is unique among the defaults of that content
type (the uniqueness the migration enforces), the price map resolves
its key to the service-specific rate when the service has an override
and to the default monthly rate otherwise; rebuilding the map with the
service overrides for that item removed reverts the resolved rate to
the default monthly rate. -/
theorem C4_service_price_overrides_default (defaults : List DefaultPriceListItem)
    (pls : List PriceListItem) (ct service : String) (d : DefaultPriceListItem)
    (hmem : d ∈ defaults) (hct : d.resource_content_type = ct)
    (huniq : (defaults.filter fun x => decide (x.resource_content_type = ct)).Pairwise
      fun a b => (a.item_type, a.key) ≠ (b.item_type, b.key)) :
    build_price_map defaults pls ct service (d.item_type, d.key)
      = some (resolved_rate pls service d) ∧
    (∀ p, (service_price_items pls service d.id).head? = some p →
      resolved_rate pls service d = p.monthly_rate) ∧
    (service_price_items pls service d.id = [] →
      resolved_rate pls service d = d.monthly_rate) ∧
    build_price_map defaults
        (pls.filter fun p =>
          decide ¬(p.service = service ∧ p.default_price_list_item_id = d.id))
        ct service (d.item_type, d.key)
      = some d.monthly_rate := by
  have hmem' : d ∈ defaults.filter fun x => decide (x.resource_content_type = ct) := by
    simp [List.mem_filter, hmem, hct]
  have hremoved : service_price_items
      (pls.filter fun p =>
        decide ¬(p.service = service ∧ p.default_price_list_item_id = d.id))
      service d.id = [] := by
    unfold service_price_items
    rw [List.filter_eq_nil_iff]
    intro p hp
    have hkeep := (List.mem_filter.mp hp).2
    simp only [decide_eq_true_eq] at hkeep
    simp [hkeep]
  refine ⟨?_, ?_, ?_, ?_⟩
  · exact foldl_price_map_mem _ _ d _ hmem' huniq
  · intro p hp
    simp [resolved_rate, hp]
  · intro hnil
    simp [resolved_rate, hnil]
  · have hb := foldl_price_map_mem
      (fun x => resolved_rate
        (pls.filter fun p =>
          decide ¬(p.service = service ∧ p.default_price_list_item_id = d.id))
        service x)
      (defaults.filter fun x => decide (x.resource_content_type = ct)) d
      (fun _ => none) hmem' huniq
    have hr : resolved_rate
        (pls.filter fun p =>
          decide ¬(p.service = service ∧ p.default_price_list_item_id = d.id))
        service d = d.monthly_rate := by
      unfold resolved_rate
      rw [hremoved]
      simp
    unfold build_price_map
    rw [hb]
    simpa using hr

/-- A concrete default price list item: flavor small at rate 10. -/
def defaultFlavorSmall : DefaultPriceListItem :=
  { id := 1, item_type := "flavor", key := "small"
    resource_content_type := "instance", monthly_rate := 10 }

/-- A concrete service override for `defaultFlavorSmall` at rate 8. -/
def overrideFlavorSmall : PriceListItem :=
  { service := "svc", default_price_list_item_id := 1, monthly_rate := 8 }

/-- C4 witness: the theorem evaluated on one default item priced 10 with
one service override priced 8 — the map resolves the key to 8, and with
the override removed the same key resolves back to 10. -/
theorem C4_service_price_overrides_default_witness :
    build_price_map [defaultFlavorSmall] [overrideFlavorSmall] "instance" "svc"
        ("flavor", "small")
      = some (resolved_rate [overrideFlavorSmall] "svc" defaultFlavorSmall) ∧
    resolved_rate [overrideFlavorSmall] "svc" defaultFlavorSmall = 8 ∧
    build_price_map [defaultFlavorSmall]
        ([overrideFlavorSmall].filter fun p =>
          decide ¬(p.service = "svc" ∧ p.default_price_list_item_id = defaultFlavorSmall.id))
        "instance" "svc" ("flavor", "small")
      = some defaultFlavorSmall.monthly_rate ∧
    defaultFlavorSmall.monthly_rate = 10 :=
  ⟨(C4_service_price_overrides_default [defaultFlavorSmall] [overrideFlavorSmall]
      "instance" "svc" defaultFlavorSmall (by decide) rfl (by decide)).1,
    by decide,
    (C4_service_price_overrides_default [defaultFlavorSmall] [overrideFlavorSmall]
      "instance" "svc" defaultFlavorSmall (by decide) rfl (by decide)).2.2.2,
    by decide⟩

/-! ## Theorems: price estimate uniqueness -/

/-- Updating the threshold of a price estimate row does not change its
scope key. -/
theorem estimate_scope_key_set_threshold (x : PriceEstimate) (t : ℚ) :
    estimate_scope_key { x with threshold := t } = estimate_scope_key x := rfl

/-- The row update performed by `create_or_update_threshold` does not
change any row's scope key. -/
theorem estimate_scope_key_upd (x : PriceEstimate) (k : String × Nat × Nat × Nat) (t : ℚ) :
    estimate_scope_key
        (if estimate_scope_key x = k then { x with threshold := t } else x)
      = estimate_scope_key x := by
  split <;> rfl

/-- C9: assuming the table satisfies the unique constraint on
`(content_type, object_id, month, year)`, both row-writing operations
preserve it — a successful constraint-checked insert yields a table
with pairwise distinct scope keys, and `create_or_update` for any
scope and month yields a table with pairwise distinct scope keys. -/
theorem C9_estimate_scope_unique (db : List PriceEstimate)
    (h : estimates_unique db) :
    (∀ e db2, insert_price_estimate db e = Except.ok db2 → estimates_unique db2) ∧
    (∀ ct oid month year t,
      estimates_unique (create_or_update_threshold db ct oid month year t)) := by
  constructor
  · intro e db2 hok
    unfold insert_price_estimate at hok
    split at hok
    · cases hok
    · rename_i hdup
      have hne : ∀ x ∈ db, estimate_scope_key x ≠ estimate_scope_key e := by
        intro x hx hc
        exact hdup (List.any_eq_true.mpr ⟨x, hx, by simpa using hc⟩)
      cases hok
      unfold estimates_unique
      rw [List.pairwise_append]
      exact ⟨h, List.pairwise_singleton _ _, fun a ha b hb => by
        rw [List.mem_singleton.mp hb]
        exact hne a ha⟩
  · intro ct oid month year t
    unfold create_or_update_threshold
    split
    · unfold estimates_unique
      rw [List.pairwise_map]
      refine h.imp ?_
      intro a b hab
      rw [estimate_scope_key_upd, estimate_scope_key_upd]
      exact hab
    · rename_i hdup
      have hne : ∀ x ∈ db, estimate_scope_key x ≠ (ct, oid, month, year) := by
        intro x hx hc
        exact hdup (List.any_eq_true.mpr ⟨x, hx, by simpa using hc⟩)
      unfold estimates_unique
      rw [List.pairwise_append]
      refine ⟨h, List.pairwise_singleton _ _, fun a ha b hb => ?_⟩
      rw [List.mem_singleton.mp hb]
      exact hne a ha

/-- A concrete price estimate row. -/
def sampleEstimate : PriceEstimate :=
  { content_type := "instance", object_id := 5, month := 8, year := 2015
    total := 1000, consumed := 800, threshold := 0, limit := -1 }

/-- C9 witness: the theorem evaluated on the empty table (insert accepts
the sample row and the result is duplicate-free) and on the one-row
table (`create_or_update` for the same scope keeps it duplicate-free). -/
theorem C9_estimate_scope_unique_witness :
    insert_price_estimate [] sampleEstimate = Except.ok [sampleEstimate] ∧
    estimates_unique [sampleEstimate] ∧
    estimates_unique (create_or_update_threshold [sampleEstimate] "instance" 5 8 2015 100) :=
  ⟨rfl,
    (C9_estimate_scope_unique [] List.Pairwise.nil).1 sampleEstimate [sampleEstimate] rfl,
    (C9_estimate_scope_unique [sampleEstimate] (List.pairwise_singleton _ _)).2
      "instance" 5 8 2015 100⟩

/-! ## Theorems: invitation validation -/

/-- C10: invitation validation rejects attributes naming both a customer
and a project, rejects attributes naming neither, rejects a customer
without a customer role and a project without a project role; any
accepted attributes name exactly one of customer-with-role or
project-with-role. -/
theorem C10_invitation_exactly_one_target (a : InvitationAttrs) :
    (a.customer.isSome ∧ a.project.isSome →
      invitation_validate a ≠ ValidationOutcome.ok) ∧
    (a.customer = none ∧ a.project = none →
      invitation_validate a ≠ ValidationOutcome.ok) ∧
    (a.customer.isSome ∧ a.customer_role_type = none →
      invitation_validate a ≠ ValidationOutcome.ok) ∧
    (a.project.isSome ∧ a.project_role_type = none →
      invitation_validate a ≠ ValidationOutcome.ok) ∧
    (invitation_validate a = ValidationOutcome.ok →
      (a.customer.isSome ∧ a.customer_role_type.isSome ∧ a.project = none) ∨
      (a.project.isSome ∧ a.project_role_type.isSome ∧ a.customer = none)) := by
  rcases a with ⟨lt, customer, crole, project, prole⟩
  by_cases hl : (lt.splitOn "\x7buuid\x7d").length = 1 <;>
    cases customer <;> cases project <;> cases crole <;> cases prole <;>
      simp [invitation_validate, hl]

/-- Concrete invitation attributes naming both a customer and a project. -/
def bothAttrs : InvitationAttrs :=
  { link_template := "\x7buuid\x7d", customer := some "c", customer_role_type := some 1
    project := some "p", project_role_type := some 1 }

/-- Concrete invitation attributes naming only a project with a role. -/
def projectAttrs : InvitationAttrs :=
  { link_template := "\x7buuid\x7d", customer := none, customer_role_type := none
    project := some "p", project_role_type := some 1 }

/-- C10 witness: the theorem evaluated on attributes naming both targets
(rejected) and on accepted attributes naming only a project with a role
(validation answers ok and the accepted target is the project). -/
theorem C10_invitation_exactly_one_target_witness :
    invitation_validate bothAttrs ≠ ValidationOutcome.ok ∧
    invitation_validate projectAttrs = ValidationOutcome.ok ∧
    ((projectAttrs.customer.isSome ∧ projectAttrs.customer_role_type.isSome ∧
        projectAttrs.project = none) ∨
      (projectAttrs.project.isSome ∧ projectAttrs.project_role_type.isSome ∧
        projectAttrs.customer = none)) :=
  ⟨(C10_invitation_exactly_one_target bothAttrs).1 (by decide),
    by with_unfolding_all decide,
    (C10_invitation_exactly_one_target projectAttrs).2.2.2.2
      (by with_unfolding_all decide)⟩

end CostEstimateTheorems
